import Mathlib

/-!
Shallow embedding of the Movie-explorer backend review-synthesis engine.

Numbers that JavaScript holds as IEEE doubles are modelled as `ℚ` (exact
arithmetic) except for `calculatePopularityScore`, whose `Math.log10` is
modelled over `ℝ` with `Real.logb 10`.  Fallible JavaScript code
(`try`/`catch`, rejected promises) is modelled with `Except`/`Option`,
external I/O (HTTP fetches, the summarization provider, the database) as
explicit oracle parameters, and the mutable service state (`isProcessing`
set, persisted record) as explicitly threaded state values.
-/

namespace MovieExplorer

set_option maxRecDepth 400000

/-! ## JavaScript string primitives -/

/-- The ASCII part of the JavaScript `\s` character class (the source texts
are ASCII; the Unicode space characters JS also accepts are omitted). -/
def isJsSpace (c : Char) : Bool :=
  c = ' ' || c = '\t' || c = '\n' || c = '\r' || c = '\x0b' || c = '\x0c'

/-- Whether `pat` occurs at the head of `l`. -/
def listStartsWith (l pat : List Char) : Bool :=
  match l, pat with
  | _, [] => true
  | [], _ :: _ => false
  | c :: cs, d :: ds => c = d && listStartsWith cs ds

/-- Whether `pat` occurs contiguously anywhere in `l`. -/
def listContains (l pat : List Char) : Bool :=
  match l with
  | [] => pat.isEmpty
  | _ :: rest => listStartsWith l pat || listContains rest pat

/-- JavaScript `String.prototype.includes` (case-sensitive substring test). -/
def jsIncludes (s pat : String) : Bool :=
  listContains s.data pat.data

/-- JavaScript `Math.max` on two exact numbers. -/
def jsMax (a b : ℚ) : ℚ := if a ≤ b then b else a

/-- JavaScript `Math.min` on two exact numbers. -/
def jsMin (a b : ℚ) : ℚ := if a ≤ b then a else b

/-- Numeric value of a digit list read as a natural number
(the integer part of a regex `\d+` capture). -/
def digitsVal (ds : List Char) : ℕ :=
  ds.foldl (fun acc c => acc * 10 + (c.toNat - '0'.toNat)) 0

/-- Numeric value of a digit list read as a fractional part
(the `\d+` after the decimal point in a `(?:\.\d+)?` group). -/
def fracVal (ds : List Char) : ℚ :=
  (digitsVal ds : ℚ) / (10 : ℚ) ^ ds.length

/-- Match the regex fragment `\d+(?:\.\d+)?` at the head of `l`
(greedy digits, then an optional decimal part), returning the captured
numeric value (as `parseFloat` would read the capture) and the remaining
characters. -/
def matchNumber (l : List Char) : Option (ℚ × List Char) :=
  let intPart := l.takeWhile Char.isDigit
  let rest := l.dropWhile Char.isDigit
  if intPart.isEmpty then none
  else
    match rest with
    | '.' :: rest2 =>
      let frPart := rest2.takeWhile Char.isDigit
      if frPart.isEmpty then
        some ((digitsVal intPart : ℚ), rest)
      else
        some ((digitsVal intPart : ℚ) + fracVal frPart, rest2.dropWhile Char.isDigit)
    | _ => some ((digitsVal intPart : ℚ), rest)

/-- Match a literal word case-insensitively (the `/i` regex flag) at the head
of `l`; `lit` is given in lower case.  Returns the remaining characters. -/
def matchLit (lit : List Char) (l : List Char) : Option (List Char) :=
  match lit, l with
  | [], rest => some rest
  | _ :: _, [] => none
  | c :: cs, d :: ds => if d.toLower = c then matchLit cs ds else none

/-- Skip the regex fragment `\s*`. -/
def skipSpaces (l : List Char) : List Char :=
  l.dropWhile isJsSpace

/-- Regex `(\d+(?:\.\d+)?)\s*\/\s*10` anchored at the current position. -/
def patSlash10 (l : List Char) : Option ℚ := do
  let (v, r) ← matchNumber l
  let r ← matchLit ['/'] (skipSpaces r)
  let _ ← matchLit ['1', '0'] (skipSpaces r)
  pure v

/-- Regex `(\d+(?:\.\d+)?)\s*\/\s*5` anchored at the current position. -/
def patSlash5 (l : List Char) : Option ℚ := do
  let (v, r) ← matchNumber l
  let r ← matchLit ['/'] (skipSpaces r)
  let _ ← matchLit ['5'] (skipSpaces r)
  pure v

/-- Regex `(\d+(?:\.\d+)?)\s*stars?` anchored at the current position
(the optional `s?` cannot affect whether the pattern matches). -/
def patStars (l : List Char) : Option ℚ := do
  let (v, r) ← matchNumber l
  let _ ← matchLit ['s', 't', 'a', 'r'] (skipSpaces r)
  pure v

/-- Regex `(\d+(?:\.\d+)?)\s*out\s*of\s*10` anchored at the current position. -/
def patOutOf10 (l : List Char) : Option ℚ := do
  let (v, r) ← matchNumber l
  let r ← matchLit ['o', 'u', 't'] (skipSpaces r)
  let r ← matchLit ['o', 'f'] (skipSpaces r)
  let _ ← matchLit ['1', '0'] (skipSpaces r)
  pure v

/-- Scan a pattern over every start position left to right, as
`String.prototype.match` does, returning the leftmost capture. -/
def scanPattern (p : List Char → Option ℚ) : List Char → Option ℚ
  | [] => p []
  | c :: rest =>
    match p (c :: rest) with
    | some v => some v
    | none => scanPattern p rest

/-- The first of the four ordered rating patterns that matches anywhere in
the text (`for (const pattern of patterns) { const match = text.match(pattern); ... }`). -/
def firstRatingMatch (text : String) : Option ℚ :=
  match scanPattern patSlash10 text.data with
  | some v => some v
  | none =>
    match scanPattern patSlash5 text.data with
    | some v => some v
    | none =>
      match scanPattern patStars text.data with
      | some v => some v
      | none => scanPattern patOutOf10 text.data

/-- `ReviewCollector.extractRatingFromText` (src/utils/reviewCollector.js
lines 202-224): ordered patterns, first match wins; the matched value is
rescaled `(rating / 5) * 10` when the original text contains the substring
`/5` or `stars`; the result is clamped with `Math.min(10, Math.max(0, rating))`. -/
def extractRatingFromText (text : String) : Option ℚ :=
  match firstRatingMatch text with
  | none => none
  | some rating =>
    let rating :=
      if jsIncludes text "/5" || jsIncludes text "stars" then rating / 5 * 10 else rating
    some (jsMin 10 (jsMax 0 rating))

/-! ## ReviewCollector (src/utils/reviewCollector.js): source collection -/

/-- A collected review item (`RawReview`). -/
structure RawReview where
  source : String
  author : String
  content : String
  rating : Option ℚ
  date : String
  url : String
  helpful_votes : Option ℤ
deriving DecidableEq

/-- JavaScript `x || null` on an optional number: `0`, like `null`, is falsy
and becomes `null`. -/
def jsOrNull (q : Option ℚ) : Option ℚ :=
  match q with
  | some v => if v = 0 then none else some v
  | none => none

/-- One item of a well-formed TMDb reviews payload
(`response.data.results[i]`, with `author_details.rating` optional). -/
structure TmdbReview where
  author : String
  content : String
  rating : Option ℚ
  created_at : String
  url : String
deriving DecidableEq

/-- Conversion of one TMDb payload item to a `RawReview`
(`rating: review.author_details.rating || null`). -/
def convertTmdb (r : TmdbReview) : RawReview :=
  { source := "tmdb", author := r.author, content := r.content,
    rating := jsOrNull r.rating, date := r.created_at, url := r.url,
    helpful_votes := none }

/-- `ReviewCollector.collectTMDbReviews`: the whole body is wrapped in
`try`/`catch` returning `[]`.  The oracle is the fetch outcome: a rejected
promise (`.error`), a malformed payload whose `results` is missing (so the
`.map` raises and is caught), or a well-formed item list. -/
def collectTMDbReviews (fetch : Except String (Option (List TmdbReview))) :
    List RawReview :=
  match fetch with
  | .error _ => []
  | .ok none => []
  | .ok (some results) => results.map convertTmdb

/-- One Reddit search result post (`post.data`). -/
structure RedditPost where
  author : String
  selftext : String
  dateIso : String
  permalink : String
  score : ℤ
deriving DecidableEq

/-- `ReviewCollector.isReviewContent`: the lower-cased text must contain one
of the review keywords and the first word of the lower-cased movie title. -/
def isReviewContent (text movieTitle : String) : Bool :=
  let reviewKeywords := ["review", "rating", "stars", "recommend", "opinion",
    "thought", "watched", "movie", "film", "cinema"]
  let lowerText := text.toLower
  let lowerTitle := movieTitle.toLower
  reviewKeywords.any (fun keyword => jsIncludes lowerText keyword)
    && jsIncludes lowerText ((lowerTitle.splitOn " ").headD "")

/-- The subreddits queried by `collectRedditReviews`, in order. -/
def redditSubreddits : List String := ["movies", "MovieReviews", "flicks", "TrueFilm"]

/-- Conversion of one accepted Reddit post to a `RawReview` (the rating is
extracted from the post text, the post score becomes `helpful_votes`). -/
def convertReddit (post : RedditPost) : RawReview :=
  { source := "reddit", author := post.author, content := post.selftext,
    rating := extractRatingFromText post.selftext, date := post.dateIso,
    url := "https://reddit.com" ++ post.permalink, helpful_votes := some post.score }

/-- The body of the `collectRedditReviews` subreddit loop: each iteration
fetches one subreddit (pacing `sleep` elided); a rejected promise or a
malformed payload raises out of the whole loop, discarding every
accumulated review.  Accepted posts have `selftext` longer than 200
characters and pass `isReviewContent`. -/
def redditLoop (movieTitle : String)
    (fetch : String → Except String (Option (List RedditPost))) :
    List String → Except String (List RawReview)
  | [] => .ok []
  | subreddit :: rest =>
    match fetch subreddit with
    | .error e => .error e
    | .ok none => .error "malformed payload"
    | .ok (some posts) =>
      match redditLoop movieTitle fetch rest with
      | .error e => .error e
      | .ok tail =>
        .ok (((posts.filter (fun p =>
          200 < p.selftext.length && isReviewContent p.selftext movieTitle)).map
            convertReddit) ++ tail)

/-- `ReviewCollector.collectRedditReviews`: the loop under `try`/`catch`
returning `[]` on any failure. -/
def collectRedditReviews (movieTitle : String)
    (fetch : String → Except String (Option (List RedditPost))) : List RawReview :=
  match redditLoop movieTitle fetch redditSubreddits with
  | .error _ => []
  | .ok reviews => reviews

/-- One parsed review element of a Letterboxd reviews page (text and author
already trimmed, `ratingCount` the number of matched `.rating` elements). -/
structure LbReviewEl where
  text : String
  author : String
  ratingCount : ℕ
deriving DecidableEq

/-- `ReviewCollector.collectLetterboxdReviews`: search page fetch (may fail,
may find no film link), then movie page fetch; keep review elements with
text longer than 100 characters, defaulting author to `Anonymous` and a
zero rating count to `null`, capped at 20.  Everything under `try`/`catch`
returning `[]`. -/
def collectLetterboxdReviews (searchFetch : Except String (Option String))
    (movieFetch : Except String (List LbReviewEl)) (nowIso : String) :
    List RawReview :=
  match searchFetch with
  | .error _ => []
  | .ok none => []
  | .ok (some movieLink) =>
    let movieUrl := "https://letterboxd.com" ++ movieLink ++ "reviews/"
    match movieFetch with
    | .error _ => []
    | .ok elements =>
      ((elements.filter (fun el => 100 < el.text.length)).map (fun el =>
        { source := "letterboxd",
          author := if el.author.isEmpty then "Anonymous" else el.author,
          content := el.text,
          rating := if el.ratingCount = 0 then none else some (el.ratingCount : ℚ),
          date := nowIso, url := movieUrl,
          helpful_votes := none : RawReview })).take 20

/-- A populated author document (`username` is required, `name` optional). -/
structure DiscussionAuthor where
  name : Option String
  username : String
deriving DecidableEq

/-- One review-category discussion document; `author` is `none` when the
populate found no user, in which case reading `.name` raises. -/
structure Discussion where
  author : Option DiscussionAuthor
  content : String
  createdAt : String
  id : String
  likes : ℕ
deriving DecidableEq

/-- Conversion of one discussion with a present author
(`author: discussion.author.name || discussion.author.username`). -/
def convertInternal (d : Discussion) (a : DiscussionAuthor) : RawReview :=
  { source := "internal",
    author := match a.name with
      | some n => if n.isEmpty then a.username else n
      | none => a.username,
    content := d.content, rating := none, date := d.createdAt,
    url := "/discussion/" ++ d.id, helpful_votes := some (d.likes : ℤ) }

/-- `ReviewCollector.collectInternalReviews`: the query may reject; a
missing populated author makes the `.map` callback raise, losing the whole
contribution.  All failures are caught and become `[]`. -/
def collectInternalReviews (find : Except String (List Discussion)) : List RawReview :=
  match find with
  | .error _ => []
  | .ok ds =>
    match ds.mapM (fun d => d.author.map (fun a => convertInternal d a)) with
    | none => []
    | some reviews => reviews

/-- The per-source fetch outcomes seen by one `collectAllReviews` call. -/
structure CollectOracles where
  tmdb : Except String (Option (List TmdbReview))
  reddit : String → Except String (Option (List RedditPost))
  lbSearch : Except String (Option String)
  lbMovie : Except String (List LbReviewEl)
  internal : Except String (List Discussion)
  nowIso : String

/-- `ReviewCollector.collectAllReviews`: the four sources run under
`Promise.allSettled`; each collector is total (every failure is absorbed
inside it as `[]`), so every branch settles fulfilled and the four
contributions are concatenated in source order. -/
def collectAllReviews (movieTitle : String) (o : CollectOracles) : List RawReview :=
  collectTMDbReviews o.tmdb
    ++ collectRedditReviews movieTitle o.reddit
    ++ collectLetterboxdReviews o.lbSearch o.lbMovie o.nowIso
    ++ collectInternalReviews o.internal

/-! ## AIReviewAnalyzer (src/unnamed/part_002): summarization -/

/-- The five sentiment classes of `classifySentiment`. -/
inductive SentClass
  | very_positive
  | positive
  | neutral
  | negative
  | very_negative
deriving DecidableEq, Repr

/-- `AIReviewAnalyzer.classifySentiment`: fixed thresholds on the comparative
score, inclusive at the lower bound. -/
def classifySentiment (comparative : ℚ) : SentClass :=
  if 0.5 ≤ comparative then .very_positive
  else if 0.1 ≤ comparative then .positive
  else if -0.1 ≤ comparative then .neutral
  else if -0.5 ≤ comparative then .negative
  else .very_negative

/-- A review as seen by the summarization path: its text, its helpfulness
votes, and the sentiment classification attached by `analyzeSentiment`
(`none` when the `sentiment` property is absent).  The remaining RawReview
fields (source, author, rating, date, url) are not read by this path. -/
structure ScoredReview where
  content : String
  helpful_votes : Option ℤ := none
  sentiment : Option SentClass := none
deriving DecidableEq

/-- The ranking key `(r.helpful_votes || 0) + (r.content.length / 100)` used
by `combineReviewsForSummary` (and `selectFeaturedReviews`). -/
def reviewScore (r : ScoredReview) : ℚ :=
  ((r.helpful_votes.getD 0 : ℤ) : ℚ) + (r.content.length : ℚ) / 100

/-- `AIReviewAnalyzer.combineReviewsForSummary`: keep reviews with content
longer than 100 characters, sort by the ranking key descending, keep the
top 5, and join their contents with single spaces. -/
def combineReviewsForSummary (reviews : List ScoredReview) : String :=
  let sorted :=
    (reviews.filter (fun r => 100 < r.content.length)).mergeSort
      (fun a b => decide (reviewScore b ≤ reviewScore a))
  String.intercalate " " ((sorted.take 5).map (fun r => r.content))

/-- Number of reviews in `reviews` whose attached sentiment classification
is `c` (the `sentimentCounts` tally of `fallbackSummary`). -/
def countClass (reviews : List ScoredReview) (c : SentClass) : ℕ :=
  (reviews.filter (fun r => r.sentiment = some c)).length

/-- The `positivePercentage` computed by `fallbackSummary`:
`Math.round(((very_positive + positive) / totalReviews) * 100)`. -/
def positivePercentage (reviews : List ScoredReview) : ℤ :=
  round ((((countClass reviews .very_positive + countClass reviews .positive : ℕ) : ℚ)
    / (reviews.length : ℚ)) * 100)

/-- `AIReviewAnalyzer.fallbackSummary`: the deterministic templated summary
stating the percentage of positive-or-better classifications. -/
def fallbackSummary (reviews : List ScoredReview) : String :=
  if reviews.length = 0 then "No reviews available."
  else
    "Based on " ++ toString reviews.length ++ " reviews analyzed, "
      ++ toString (positivePercentage reviews)
      ++ "% of viewers had a positive opinion. "
      ++ "The most commonly mentioned aspects include story, acting, and visual effects. "
      ++ "Reviews highlight both strengths and areas for improvement in various aspects of the film."

/-- Outcome of the external Hugging Face summarization call: the axios
promise rejects (failure or timeout), or it resolves with or without a
`summary_text` field. -/
inductive ProviderResult
  | failure
  | response (summary_text : Option String)

/-- `AIReviewAnalyzer.summarizeReviews`: combine the selected reviews; when
the combined input is shorter than 100 characters return the literal
short-content message; otherwise call the provider on the first 1024
characters, falling back to `fallbackSummary` when the call fails or the
response carries no (or an empty, hence falsy) `summary_text`.
The `maxLength` parameter is only forwarded to the provider and is folded
into the provider oracle. -/
def summarizeReviews (reviews : List ScoredReview) (provider : String → ProviderResult) :
    String :=
  let combinedText := combineReviewsForSummary reviews
  if combinedText.length < 100 then
    "Not enough review content for meaningful summary."
  else
    match provider (combinedText.take 1024) with
    | .failure => fallbackSummary reviews
    | .response none => fallbackSummary reviews
    | .response (some s) => if s.isEmpty then fallbackSummary reviews else s

/-! ## ReviewSynthesis model (src/models/ReviewSynthesis.js) -/

/-- The `status` enum of the ReviewSynthesis schema. -/
inductive RecStatus
  | pending
  | processing
  | completed
  | failed
deriving DecidableEq, Repr

/-- One `processingLog` entry.  The schema also stamps a `timestamp`
(defaulting to `Date.now`), never read by the verified code paths. -/
structure LogEntry where
  step : String
  status : String
  message : String
deriving DecidableEq

/-- The persisted ReviewSynthesis record.  The analysis payload fields
(sentiment, aspects, themes, ratings, sources, featuredReviews) are elided:
no code path verified here reads them back.  Times are epoch milliseconds
as integers. -/
structure ReviewSynthesisRec where
  movieId : ℕ
  movieTitle : String := ""
  movieYear : Option ℤ := none
  summary : String := ""
  reviewCount : ℕ := 0
  status : RecStatus := .pending
  processingLog : List LogEntry := []
  lastUpdated : ℤ
  needsUpdate : Bool := false
  popularityScore : ℤ := 0
deriving DecidableEq

/-- Seven days in milliseconds (`7 * 24 * 60 * 60 * 1000`). -/
def sevenDaysMs : ℤ := 7 * 24 * 60 * 60 * 1000

/-- `ReviewSynthesisSchema.methods.needsRefresh`: marked for update, or
`lastUpdated` older than seven days before `now`. -/
def needsRefresh (now : ℤ) (r : ReviewSynthesisRec) : Bool :=
  r.needsUpdate || decide (r.lastUpdated < now - sevenDaysMs)

/-- `ReviewSynthesisSchema.statics.findMoviesNeedingUpdate`: records with
`needsUpdate` set or `lastUpdated` older than the 7-day window, ordered by
`popularityScore` descending, capped to `limit` (default 10). -/
def findMoviesNeedingUpdate (now : ℤ) (store : List ReviewSynthesisRec)
    (limit : ℕ := 10) : List ReviewSynthesisRec :=
  ((store.filter
      (fun r => r.needsUpdate || decide (r.lastUpdated < now - sevenDaysMs))).mergeSort
    (fun a b => decide (b.popularityScore ≤ a.popularityScore))).take limit

/-! ## ReviewSynthesisService: popularity score and scheduler batch -/

/-- `ReviewSynthesisService.calculatePopularityScore`: the weighted blend of
vote average and log-scaled counts, rounded (`Math.round` rounds half
toward positive infinity, as does `round`).  The `|| 0` defaulting of
absent TMDb fields happens before this function is reached in the model. -/
noncomputable def calculatePopularityScore
    (voteAverage voteCount popularity reviewCount : ℝ) : ℤ :=
  round (voteAverage * 0.3 + Real.logb 10 (voteCount + 1) * 0.3
    + Real.logb 10 (popularity + 1) * 0.2 + Real.logb 10 (reviewCount + 1) * 0.2)

/-- Observable scheduler actions of one `updatePopularMovies` tick:
an attempted `generateSynthesis(movieId, true)` call (with whether it
succeeded) and the fixed `setTimeout` pacing delay. -/
inductive SchedEvent
  | attempt (movieId : ℕ) (ok : Bool)
  | delay (ms : ℕ)
deriving DecidableEq

/-- `ReviewSynthesisService.updatePopularMovies` as its event trace: process
the batch from `findMoviesNeedingUpdate` sequentially; each item is awaited
(`runOutcome` tells whether that `generateSynthesis` call succeeded), a
success is followed by the fixed 2000 ms delay, and a failure is caught and
logged, after which the loop continues with the next item. -/
def updatePopularMovies (now : ℤ) (store : List ReviewSynthesisRec)
    (limit : ℕ := 5) (runOutcome : ℕ → Bool) : List SchedEvent :=
  ((findMoviesNeedingUpdate now store limit).map (fun movie =>
      if runOutcome movie.movieId then
        [SchedEvent.attempt movie.movieId true, SchedEvent.delay 2000]
      else
        [SchedEvent.attempt movie.movieId false])).flatten

/-! ## ReviewSynthesisService.generateSynthesis — single run

A functional translation of one `generateSynthesis(movieId, forceUpdate)`
invocation running without interference.  The database is the record for
this movie id (`db`), writes (`synthesis.save()`) are modelled as assigning
it (schema validation elided), and the in-memory `isProcessing` set as a
list.  External effects are oracles: the TMDb details fetch (which rejects
on any failure and whose falsy-result guard raises `Movie not found`), the
collected review list (total, per `collectAllReviews`), and the analyzer
outcome. -/

/-- TMDb movie details as read by the service.  `releaseYear` stands for
`new Date(release_date).getFullYear()` when `release_date` is present
(date parsing elided). -/
structure MovieDetails where
  title : String
  releaseYear : Option ℤ := none
  vote_average : Option ℚ := none
  vote_count : Option ℚ := none
  popularity : Option ℚ := none
deriving DecidableEq

/-- The part of the `analyzeReviews` result merged into the record that the
verified paths read back (the other merged fields are elided with the
record fields). -/
structure AnalysisOutcome where
  summary : String
  reviewCount : ℕ
deriving DecidableEq

/-- External outcomes of one `generateSynthesis` run. -/
structure GenOracle where
  fetch : Except String (Option MovieDetails)
  reviews : List RawReview
  analysis : Except String AnalysisOutcome

/-- Service-visible state: the in-memory `isProcessing` set, the persisted
record for the subject movie id, and the current time. -/
structure GenState where
  isProcessing : List ℕ
  db : Option ReviewSynthesisRec
  now : ℤ
deriving DecidableEq

/-- What one `generateSynthesis` call settles with: the `null` no-op
signal, the cached record, the produced record, or a rethrown error. -/
inductive GenOutcome
  | noop
  | cached (r : ReviewSynthesisRec)
  | ok (r : ReviewSynthesisRec)
  | error (msg : String)
deriving DecidableEq

/-- A fresh `new ReviewSynthesis({movieId, movieTitle, movieYear})` with its
schema defaults (`status` pending, empty log, `lastUpdated` now,
`needsUpdate` false, `popularityScore` 0). -/
def newRecord (movieId : ℕ) (details : MovieDetails) (now : ℤ) : ReviewSynthesisRec :=
  { movieId := movieId, movieTitle := details.title, movieYear := details.releaseYear,
    lastUpdated := now }

/-- The `catch` block of `generateSynthesis`: when the id is still admitted,
mark the stored record failed with an error log entry (when one exists),
release the guard entry, and rethrow. -/
def generateSynthesisCatch (movieId : ℕ) (msg : String) (s : GenState) :
    GenState × GenOutcome :=
  if movieId ∈ s.isProcessing then
    let s1 : GenState :=
      match s.db with
      | some r =>
        let r2 := { r with
          status := RecStatus.failed,
          processingLog := r.processingLog ++ [⟨"error", "error", msg⟩] }
        { s with db := some r2 }
      | none => s
    ({ s1 with isProcessing := s1.isProcessing.erase movieId }, .error msg)
  else
    (s, .error msg)

/-- The admitted part of `generateSynthesis` (everything after
`this.isProcessing.add(movieId)`), with `synthesis0` the earlier `findOne`
result. -/
def generateSynthesisAdmitted (popScore : MovieDetails → ℕ → ℤ) (o : GenOracle)
    (movieId : ℕ) (synthesis0 : Option ReviewSynthesisRec) (s : GenState) :
    GenState × GenOutcome :=
  match o.fetch with
  | .error e => generateSynthesisCatch movieId e s
  | .ok none => generateSynthesisCatch movieId "Movie not found" s
  | .ok (some movieDetails) =>
    let synthesis :=
      match synthesis0 with
      | some r => r
      | none => newRecord movieId movieDetails s.now
    let synthesis := { synthesis with
      status := RecStatus.processing,
      processingLog := synthesis.processingLog
        ++ [⟨"started", "info", "Started review synthesis process"⟩] }
    let s := { s with db := some synthesis }
    let synthesis := { synthesis with processingLog := synthesis.processingLog
      ++ [⟨"collection", "info", "Collecting reviews from sources"⟩] }
    let s := { s with db := some synthesis }
    let reviews := o.reviews
    if reviews.length = 0 then
      let synthesis := { synthesis with
        status := RecStatus.completed,
        summary := "No reviews found for this movie yet.",
        reviewCount := 0,
        processingLog := synthesis.processingLog
          ++ [⟨"collection", "warning", "No reviews found from any source"⟩] }
      ({ s with
          db := some synthesis,
          isProcessing := s.isProcessing.erase movieId }, .ok synthesis)
    else
      let synthesis := { synthesis with processingLog := synthesis.processingLog
        ++ [⟨"analysis", "info", "Analyzing " ++ toString reviews.length ++ " reviews"⟩] }
      let s := { s with db := some synthesis }
      match o.analysis with
      | .error e => generateSynthesisCatch movieId e s
      | .ok analysis =>
        let synthesis := { synthesis with
          summary := analysis.summary,
          reviewCount := analysis.reviewCount,
          status := .completed,
          lastUpdated := s.now,
          needsUpdate := false,
          popularityScore := popScore movieDetails reviews.length,
          processingLog := synthesis.processingLog
            ++ [⟨"completed", "success",
                "Successfully processed " ++ toString reviews.length ++ " reviews"⟩] }
        ({ s with
            db := some synthesis,
            isProcessing := s.isProcessing.erase movieId }, .ok synthesis)

/-- One `generateSynthesis(movieId, forceUpdate)` call: the `isProcessing`
no-op check, the cached-record early return, then admission
(`isProcessing.add`) and the guarded pipeline. -/
def generateSynthesis (popScore : MovieDetails → ℕ → ℤ) (o : GenOracle)
    (movieId : ℕ) (forceUpdate : Bool) (s : GenState) : GenState × GenOutcome :=
  if movieId ∈ s.isProcessing then
    (s, .noop)
  else
    match s.db with
    | some r =>
      if !forceUpdate && !needsRefresh s.now r then
        (s, .cached r)
      else
        generateSynthesisAdmitted popScore o movieId (some r)
          { s with isProcessing := movieId :: s.isProcessing }
    | none =>
      generateSynthesisAdmitted popScore o movieId none
        { s with isProcessing := movieId :: s.isProcessing }

/-! ## ReviewSynthesisService.getSynthesis -/

/-- External outcomes of one `getSynthesis` call: the `findOne` lookup, the
`synthesis.save()` persisting `needsUpdate`, and the outcome of a
synchronous `generateSynthesis` when the read path awaits one. -/
structure GetOracle where
  findOne : Except String (Option ReviewSynthesisRec)
  save : Except String Unit
  gen : Except String (Option ReviewSynthesisRec)

/-- Observable result of one `getSynthesis` call: the returned value
(`none` models both `null` returns and caught errors), whether the record
was saved with `needsUpdate = true`, whether the fire-and-forget background
`generateSynthesis(movieId, true)` was launched, and whether a synchronous
`generateSynthesis` was awaited on the read path. -/
structure GetResult where
  ret : Option ReviewSynthesisRec
  savedNeedsUpdate : Bool
  backgroundStarted : Bool
  syncRan : Bool
deriving DecidableEq

/-- The `else` arm of `getSynthesis` that awaits `generateSynthesis`
synchronously; its rejection is caught by the surrounding `try`,
returning `null`. -/
def getSynthesisSync (o : GetOracle) : GetResult :=
  match o.gen with
  | .error _ =>
    { ret := none, savedNeedsUpdate := false, backgroundStarted := false, syncRan := true }
  | .ok v =>
    { ret := v, savedNeedsUpdate := false, backgroundStarted := false, syncRan := true }

/-- `ReviewSynthesisService.getSynthesis`: return the cached record when it
is fresh; on a stale `completed` record persist `needsUpdate = true`, start
a background regeneration without awaiting it, and return the existing
record; otherwise (no record, or a stale record not in `completed` status)
await a synchronous generation.  Any error inside is caught and `null` is
returned. -/
def getSynthesis (now : ℤ) (o : GetOracle) : GetResult :=
  match o.findOne with
  | .error _ =>
    { ret := none, savedNeedsUpdate := false, backgroundStarted := false, syncRan := false }
  | .ok synthesis =>
    let needsGen :=
      match synthesis with
      | none => true
      | some r => needsRefresh now r
    if needsGen then
      match synthesis with
      | some r =>
        if r.status = .completed then
          match o.save with
          | .error _ =>
            { ret := none, savedNeedsUpdate := false,
              backgroundStarted := false, syncRan := false }
          | .ok _ =>
            { ret := some { r with needsUpdate := true },
              savedNeedsUpdate := true, backgroundStarted := true, syncRan := false }
        else
          getSynthesisSync o
      | none => getSynthesisSync o
    else
      { ret := synthesis, savedNeedsUpdate := false,
        backgroundStarted := false, syncRan := false }

/-! ## Interleaving machine for two concurrent generateSynthesis calls

JavaScript runs each async function body atomically between `await`
boundaries.  The machine below cuts one `generateSynthesis` call at
exactly its `await` expressions (`findOne`, `fetchMovieDetails`, the
`save()` calls, `collectAllReviews`, `analyzeReviews`, and the `findOne` /
`save()` inside the `catch` block); a scheduler step runs one task's next
segment.  A `save()` write is applied to the shared record when the save
is issued.  Locals (`synthesis`, `movieDetails`) live in the task. -/

/-- Program counters between the `await` boundaries of `generateSynthesis`. -/
inductive TaskPC
  | entry
  | afterFindOne
  | afterFetch
  | afterSave1
  | afterSave2
  | afterCollect
  | afterZeroSave
  | afterSave3
  | afterAnalyze
  | afterSave4
  | catchAfterFindOne
  | catchAfterSave
  | done
deriving DecidableEq

/-- Per-task state: program counter, the local `synthesis` and
`movieDetails` variables, the caught error message, and the settled
outcome. -/
structure TaskState where
  pc : TaskPC
  synthesis : Option ReviewSynthesisRec := none
  details : Option MovieDetails := none
  errMsg : String := ""
  outcome : Option GenOutcome := none
deriving DecidableEq

/-- Entry into the `catch` block: the synchronous part up to the `await
findOne` inside it (or straight to rethrow when the id is not admitted). -/
def stepCatchEntry (movieId : ℕ) (e : String) (m : GenState) (t : TaskState) :
    GenState × TaskState :=
  if movieId ∈ m.isProcessing then
    (m, { t with errMsg := e, pc := .catchAfterFindOne })
  else
    (m, { t with errMsg := e, pc := .done, outcome := some (.error e) })

/-- One atomic segment of one task of the interleaving machine.  Branches
that a real execution cannot reach (a missing local at a late program
counter) settle with a sentinel error outcome. -/
def stepTask (popScore : MovieDetails → ℕ → ℤ) (o : GenOracle) (movieId : ℕ)
    (forceUpdate : Bool) (m : GenState) (t : TaskState) : GenState × TaskState :=
  match t.pc with
  | .entry =>
    if movieId ∈ m.isProcessing then
      (m, { t with pc := .done, outcome := some .noop })
    else
      (m, { t with pc := .afterFindOne })
  | .afterFindOne =>
    match m.db with
    | some r =>
      if !forceUpdate && !needsRefresh m.now r then
        (m, { t with pc := .done, outcome := some (.cached r) })
      else
        ({ m with isProcessing := movieId :: m.isProcessing },
         { t with synthesis := some r, pc := .afterFetch })
    | none =>
      ({ m with isProcessing := movieId :: m.isProcessing },
       { t with synthesis := none, pc := .afterFetch })
  | .afterFetch =>
    match o.fetch with
    | .error e => stepCatchEntry movieId e m t
    | .ok none => stepCatchEntry movieId "Movie not found" m t
    | .ok (some d) =>
      let syn :=
        match t.synthesis with
        | some r => r
        | none => newRecord movieId d m.now
      let syn := { syn with
        status := RecStatus.processing,
        processingLog := syn.processingLog
          ++ [⟨"started", "info", "Started review synthesis process"⟩] }
      ({ m with db := some syn },
       { t with details := some d, synthesis := some syn, pc := .afterSave1 })
  | .afterSave1 =>
    match t.synthesis with
    | some syn =>
      let syn := { syn with processingLog := syn.processingLog
        ++ [⟨"collection", "info", "Collecting reviews from sources"⟩] }
      ({ m with db := some syn }, { t with synthesis := some syn, pc := .afterSave2 })
    | none => (m, { t with pc := .done, outcome := some (.error "unreachable") })
  | .afterSave2 =>
    (m, { t with pc := .afterCollect })
  | .afterCollect =>
    match t.synthesis with
    | some syn =>
      if o.reviews.length = 0 then
        let syn := { syn with
          status := RecStatus.completed,
          summary := "No reviews found for this movie yet.",
          reviewCount := 0,
          processingLog := syn.processingLog
            ++ [⟨"collection", "warning", "No reviews found from any source"⟩] }
        ({ m with db := some syn }, { t with synthesis := some syn, pc := .afterZeroSave })
      else
        let syn := { syn with processingLog := syn.processingLog
          ++ [⟨"analysis", "info",
              "Analyzing " ++ toString o.reviews.length ++ " reviews"⟩] }
        ({ m with db := some syn }, { t with synthesis := some syn, pc := .afterSave3 })
    | none => (m, { t with pc := .done, outcome := some (.error "unreachable") })
  | .afterZeroSave =>
    match t.synthesis with
    | some syn =>
      ({ m with isProcessing := m.isProcessing.erase movieId },
       { t with pc := .done, outcome := some (.ok syn) })
    | none => (m, { t with pc := .done, outcome := some (.error "unreachable") })
  | .afterSave3 =>
    (m, { t with pc := .afterAnalyze })
  | .afterAnalyze =>
    match o.analysis with
    | .error e => stepCatchEntry movieId e m t
    | .ok analysis =>
      match t.synthesis, t.details with
      | some syn, some d =>
        let syn := { syn with
          summary := analysis.summary,
          reviewCount := analysis.reviewCount,
          status := .completed,
          lastUpdated := m.now,
          needsUpdate := false,
          popularityScore := popScore d o.reviews.length,
          processingLog := syn.processingLog
            ++ [⟨"completed", "success",
                "Successfully processed " ++ toString o.reviews.length ++ " reviews"⟩] }
        ({ m with db := some syn }, { t with synthesis := some syn, pc := .afterSave4 })
      | _, _ => (m, { t with pc := .done, outcome := some (.error "unreachable") })
  | .afterSave4 =>
    match t.synthesis with
    | some syn =>
      ({ m with isProcessing := m.isProcessing.erase movieId },
       { t with pc := .done, outcome := some (.ok syn) })
    | none => (m, { t with pc := .done, outcome := some (.error "unreachable") })
  | .catchAfterFindOne =>
    match m.db with
    | some r =>
      let r := { r with
        status := RecStatus.failed,
        processingLog := r.processingLog ++ [⟨"error", "error", t.errMsg⟩] }
      ({ m with db := some r }, { t with pc := .catchAfterSave })
    | none =>
      ({ m with isProcessing := m.isProcessing.erase movieId },
       { t with pc := .done, outcome := some (.error t.errMsg) })
  | .catchAfterSave =>
    ({ m with isProcessing := m.isProcessing.erase movieId },
     { t with pc := .done, outcome := some (.error t.errMsg) })
  | .done => (m, t)

/-- Run two concurrent `generateSynthesis(movieId)` calls under a given
schedule: each schedule entry runs one atomic segment of task 0 or of
task 1 against the shared state. -/
def runTwoCalls (popScore : MovieDetails → ℕ → ℤ) (o0 o1 : GenOracle) (movieId : ℕ)
    (force0 force1 : Bool) :
    List (Fin 2) → GenState → TaskState → TaskState →
      GenState × TaskState × TaskState
  | [], m, t0, t1 => (m, t0, t1)
  | i :: rest, m, t0, t1 =>
    if i = 0 then
      let (m2, t0s) := stepTask popScore o0 movieId force0 m t0
      runTwoCalls popScore o0 o1 movieId force0 force1 rest m2 t0s t1
    else
      let (m2, t1s) := stepTask popScore o1 movieId force1 m t1
      runTwoCalls popScore o0 o1 movieId force0 force1 rest m2 t0 t1s

/-! ## Shared helper lemmas -/

theorem jsMax_zero_nonneg (r : ℚ) : 0 ≤ jsMax 0 r := by
  unfold jsMax
  split <;> linarith

theorem jsMin_ten_le (x : ℚ) : jsMin 10 x ≤ 10 := by
  unfold jsMin
  split <;> linarith

theorem jsMin_ten_nonneg (x : ℚ) (h : 0 ≤ x) : 0 ≤ jsMin 10 x := by
  unfold jsMin
  split <;> linarith

/-! ## C5 — rating extraction -/

/-- C5 counterexample: on the text `3/10 stars` the first pattern (`x/10`)
matches with capture 3, yet the extracted rating is 6: the ×2 rescaling is
applied even though the value was matched on the /10 scale, because the
text happens to contain the substring `stars`.  The claim mandates 3
(first match wins on the /10 scale, no rescaling). -/
theorem extractRatingFromText_rescales_slash10_match :
    scanPattern patSlash10 ("3/10 stars").data = some 3 ∧
    extractRatingFromText "3/10 stars" = some 6 ∧ (6 : ℚ) ≠ 3 := by
  refine ⟨?_, ?_, ?_⟩ <;> with_unfolding_all decide

/-- C5 (amended): rating extraction tries the four ordered patterns with
first match winning; the matched value is rescaled ×2 (as `(v / 5) * 10`)
exactly when the original text contains the substring `/5` or `stars`
(case-sensitively, regardless of which pattern matched), then clamped to
[0, 10]; `8/10` yields 8.0, `4 stars` yields 8.0, and with no match the
result is null. -/
theorem extractRatingFromText_amended :
    (∀ text v, firstRatingMatch text = some v →
      extractRatingFromText text =
        some (jsMin 10 (jsMax 0
          (if jsIncludes text "/5" || jsIncludes text "stars" then v / 5 * 10 else v)))) ∧
    (∀ v : ℚ, v / 5 * 10 = 2 * v) ∧
    (∀ text, firstRatingMatch text = none → extractRatingFromText text = none) ∧
    (∀ text v, extractRatingFromText text = some v → 0 ≤ v ∧ v ≤ 10) ∧
    extractRatingFromText "8/10" = some 8 ∧
    extractRatingFromText "4 stars" = some 8 := by
  refine ⟨?_, ?_, ?_, ?_, ?_, ?_⟩
  · intro text v h
    unfold extractRatingFromText
    rw [h]
  · intro v
    ring
  · intro text h
    unfold extractRatingFromText
    rw [h]
  · intro text v h
    unfold extractRatingFromText at h
    rcases hm : firstRatingMatch text with _ | w
    · rw [hm] at h
      exact absurd h (by simp)
    · rw [hm] at h
      simp only [Option.some.injEq] at h
      subst h
      exact ⟨jsMin_ten_nonneg _ (jsMax_zero_nonneg _), jsMin_ten_le _⟩
  · with_unfolding_all decide
  · with_unfolding_all decide

/-- C5 witness: the amended theorem applied at `8/10` (evaluating the
rescale-and-clamp expression) and the clamp bounds at `4 stars`. -/
theorem extractRatingFromText_amended_witness :
    extractRatingFromText "8/10" =
      some (jsMin 10 (jsMax 0
        (if jsIncludes "8/10" "/5" || jsIncludes "8/10" "stars"
          then (8 : ℚ) / 5 * 10 else 8))) ∧
    (0 ≤ (8 : ℚ) ∧ (8 : ℚ) ≤ 10) :=
  ⟨extractRatingFromText_amended.1 "8/10" 8 (by with_unfolding_all decide),
   extractRatingFromText_amended.2.2.2.1 "4 stars" 8 (by with_unfolding_all decide)⟩

/-! ## C4 — summarization fallback -/

/-- C4 counterexample: a single short review makes the combined
summarization input empty (shorter than 100 characters), and
`summarizeReviews` returns the literal short-content message — not the
deterministic templated percentage summary the claim mandates for this
case. -/
theorem summarizeReviews_short_input_not_fallback :
    summarizeReviews [⟨"short", none, some SentClass.very_positive⟩] (fun _ => .failure)
      = "Not enough review content for meaningful summary." ∧
    summarizeReviews [⟨"short", none, some SentClass.very_positive⟩] (fun _ => .failure)
      ≠ fallbackSummary [⟨"short", none, some SentClass.very_positive⟩] := by
  constructor <;> with_unfolding_all decide

/-- C4 (amended): when the combined summarization input is shorter than 100
characters `summarizeReviews` returns the fixed literal
`Not enough review content for meaningful summary.`; on a provider failure
or timeout (with combined input of at least 100 characters) it falls back
to `fallbackSummary`, the deterministic template stating the percentage of
positive-or-better classifications among all analyzed reviews. -/
theorem summarizeReviews_amended :
    ∀ reviews provider,
      ((combineReviewsForSummary reviews).length < 100 →
        summarizeReviews reviews provider
          = "Not enough review content for meaningful summary.") ∧
      (¬ (combineReviewsForSummary reviews).length < 100 →
        provider ((combineReviewsForSummary reviews).take 1024) = .failure →
        summarizeReviews reviews provider = fallbackSummary reviews) ∧
      (reviews ≠ [] → fallbackSummary reviews =
        "Based on " ++ toString reviews.length ++ " reviews analyzed, "
          ++ toString (positivePercentage reviews)
          ++ "% of viewers had a positive opinion. "
          ++ "The most commonly mentioned aspects include story, acting, and visual effects. "
          ++ "Reviews highlight both strengths and areas for improvement in various aspects of the film.") := by
  intro reviews provider
  refine ⟨?_, ?_, ?_⟩
  · intro h
    unfold summarizeReviews
    simp only [h, if_true]
  · intro h hp
    unfold summarizeReviews
    simp only [if_neg h, hp]
  · intro h
    unfold fallbackSummary
    rw [if_neg (by simpa using h)]

/-- C4 witness: the amended theorem applied to a 150-character review with
a failing provider (fallback taken) and to the short-input case. -/
theorem summarizeReviews_amended_witness :
    summarizeReviews [⟨String.mk (List.replicate 150 'a'), none, some SentClass.positive⟩]
        (fun _ => .failure)
      = fallbackSummary [⟨String.mk (List.replicate 150 'a'), none, some SentClass.positive⟩] ∧
    summarizeReviews [] (fun _ => .failure)
      = "Not enough review content for meaningful summary." :=
  ⟨(summarizeReviews_amended
      [⟨String.mk (List.replicate 150 'a'), none, some SentClass.positive⟩]
      (fun _ => .failure)).2.1
    (by with_unfolding_all decide) rfl,
   (summarizeReviews_amended [] (fun _ => .failure)).1 (by with_unfolding_all decide)⟩

/-! ## C7 — popularity score -/

theorem roundMonoR {x y : ℝ} (h : x ≤ y) : round x ≤ round y := by
  rw [round_eq, round_eq]
  exact Int.floor_le_floor (by linarith)

/-- C7: `popularityScore` equals
`round(0.3·voteAverage + 0.3·log10(voteCount+1) + 0.2·log10(popularity+1)
+ 0.2·log10(reviewCount+1))`; it is a deterministic function of its four
inputs (it is a function) and is monotonically non-decreasing in each input
independently, the count-like inputs taken non-negative so their `log10`
arguments stay in the monotone range. -/
theorem calculatePopularityScore_spec :
    ∀ vA vC p rC : ℝ,
      (calculatePopularityScore vA vC p rC
        = round (0.3 * vA + 0.3 * Real.logb 10 (vC + 1) + 0.2 * Real.logb 10 (p + 1)
            + 0.2 * Real.logb 10 (rC + 1))) ∧
      (∀ vA2, vA ≤ vA2 →
        calculatePopularityScore vA vC p rC ≤ calculatePopularityScore vA2 vC p rC) ∧
      (∀ vC2, 0 ≤ vC → vC ≤ vC2 →
        calculatePopularityScore vA vC p rC ≤ calculatePopularityScore vA vC2 p rC) ∧
      (∀ p2, 0 ≤ p → p ≤ p2 →
        calculatePopularityScore vA vC p rC ≤ calculatePopularityScore vA vC p2 rC) ∧
      (∀ rC2, 0 ≤ rC → rC ≤ rC2 →
        calculatePopularityScore vA vC p rC ≤ calculatePopularityScore vA vC p rC2) := by
  intro vA vC p rC
  refine ⟨?_, ?_, ?_, ?_, ?_⟩
  · unfold calculatePopularityScore
    congr 1
    ring
  · intro vA2 h
    unfold calculatePopularityScore
    apply roundMonoR
    have : vA * 0.3 ≤ vA2 * 0.3 := by linarith
    linarith
  · intro vC2 h0 h
    unfold calculatePopularityScore
    apply roundMonoR
    have hl : Real.logb 10 (vC + 1) ≤ Real.logb 10 (vC2 + 1) :=
      Real.logb_le_logb_of_le (by norm_num) (by linarith) (by linarith)
    nlinarith
  · intro p2 h0 h
    unfold calculatePopularityScore
    apply roundMonoR
    have hl : Real.logb 10 (p + 1) ≤ Real.logb 10 (p2 + 1) :=
      Real.logb_le_logb_of_le (by norm_num) (by linarith) (by linarith)
    nlinarith
  · intro rC2 h0 h
    unfold calculatePopularityScore
    apply roundMonoR
    have hl : Real.logb 10 (rC + 1) ≤ Real.logb 10 (rC2 + 1) :=
      Real.logb_le_logb_of_le (by norm_num) (by linarith) (by linarith)
    nlinarith

/-- C7 witness: the spec equation and each monotonicity applied at the
spec example point voteAverage 8, voteCount 1000, popularity 50,
reviewCount 20. -/
theorem calculatePopularityScore_spec_witness :
    (calculatePopularityScore 8 1000 50 20
      = round (0.3 * (8 : ℝ) + 0.3 * Real.logb 10 (1000 + 1) + 0.2 * Real.logb 10 (50 + 1)
          + 0.2 * Real.logb 10 (20 + 1))) ∧
    calculatePopularityScore 8 1000 50 20 ≤ calculatePopularityScore 9 1000 50 20 ∧
    calculatePopularityScore 8 1000 50 20 ≤ calculatePopularityScore 8 1001 50 20 ∧
    calculatePopularityScore 8 1000 50 20 ≤ calculatePopularityScore 8 1000 51 20 ∧
    calculatePopularityScore 8 1000 50 20 ≤ calculatePopularityScore 8 1000 50 21 :=
  ⟨(calculatePopularityScore_spec 8 1000 50 20).1,
   (calculatePopularityScore_spec 8 1000 50 20).2.1 9 (by norm_num),
   (calculatePopularityScore_spec 8 1000 50 20).2.2.1 1001 (by norm_num) (by norm_num),
   (calculatePopularityScore_spec 8 1000 50 20).2.2.2.1 51 (by norm_num) (by norm_num),
   (calculatePopularityScore_spec 8 1000 50 20).2.2.2.2 21 (by norm_num) (by norm_num)⟩

/-! ## C8 — scheduler tick -/

/-- The movie id of an `attempt` event (`none` for pacing delays). -/
def attemptId : SchedEvent → Option ℕ
  | .attempt id _ => some id
  | .delay _ => none

/-- C8: a scheduler tick selects only stale records (`needsUpdate` set or
`lastUpdated` older than the 7-day window) and selects all of them whenever
they fit the batch cap, orders the batch by `popularityScore` descending,
caps it to the limit, attempts `generateSynthesis` for exactly the selected
records in order — also when some attempts fail — and paces with the fixed
2000 ms delay; an 8-day-old record with `needsUpdate = false` satisfies the
staleness rule. -/
theorem updatePopularMovies_spec :
    ∀ (now : ℤ) (store : List ReviewSynthesisRec) (limit : ℕ) (runOutcome : ℕ → Bool),
      (∀ r ∈ findMoviesNeedingUpdate now store limit,
        r ∈ store ∧ (r.needsUpdate = true ∨ r.lastUpdated < now - sevenDaysMs)) ∧
      ((store.filter
          (fun r => r.needsUpdate || decide (r.lastUpdated < now - sevenDaysMs))).length
          ≤ limit →
        ∀ r ∈ store, needsRefresh now r = true →
          r ∈ findMoviesNeedingUpdate now store limit) ∧
      (findMoviesNeedingUpdate now store limit).Pairwise
        (fun a b => b.popularityScore ≤ a.popularityScore) ∧
      (findMoviesNeedingUpdate now store limit).length ≤ limit ∧
      ((updatePopularMovies now store limit runOutcome).filterMap attemptId
        = (findMoviesNeedingUpdate now store limit).map (fun r => r.movieId)) ∧
      (∀ e ∈ updatePopularMovies now store limit runOutcome,
        ∀ ms, e = SchedEvent.delay ms → ms = 2000) ∧
      (∀ r : ReviewSynthesisRec, r.needsUpdate = false →
        r.lastUpdated = now - 8 * 24 * 60 * 60 * 1000 → needsRefresh now r = true) := by
  intro now store limit runOutcome
  refine ⟨?_, ?_, ?_, ?_, ?_, ?_, ?_⟩
  · intro r hr
    unfold findMoviesNeedingUpdate at hr
    have h1 := List.mem_of_mem_take hr
    rw [List.mem_mergeSort] at h1
    have h2 := List.mem_filter.mp h1
    refine ⟨h2.1, ?_⟩
    have h3 := h2.2
    simp only [Bool.or_eq_true, decide_eq_true_eq] at h3
    exact h3
  · intro hlen r hr hst
    unfold findMoviesNeedingUpdate
    rw [List.take_of_length_le (by simpa [List.length_mergeSort] using hlen)]
    rw [List.mem_mergeSort]
    refine List.mem_filter.mpr ⟨hr, ?_⟩
    simpa [needsRefresh] using hst
  · unfold findMoviesNeedingUpdate
    apply List.Pairwise.sublist (List.take_sublist _ _)
    have h := @List.sorted_mergeSort ReviewSynthesisRec
      (fun a b : ReviewSynthesisRec => decide (b.popularityScore ≤ a.popularityScore))
      (by intro a b c hab hbc; simp only [decide_eq_true_eq] at *; omega)
      (by intro a b; simp only [Bool.or_eq_true, decide_eq_true_eq]; omega)
      (store.filter (fun r => r.needsUpdate || decide (r.lastUpdated < now - sevenDaysMs)))
    exact h.imp (by intro a b hb; simpa using hb)
  · unfold findMoviesNeedingUpdate
    simp [List.length_take]
  · unfold updatePopularMovies
    generalize findMoviesNeedingUpdate now store limit = sel
    induction sel with
    | nil => rfl
    | cons a l ih =>
      by_cases hf : runOutcome a.movieId <;> simp [hf, attemptId, ih]
  · intro e he ms hms
    subst hms
    unfold updatePopularMovies at he
    rw [List.mem_flatten] at he
    obtain ⟨chunk, hc, hec⟩ := he
    rw [List.mem_map] at hc
    obtain ⟨movie, _, hchunk⟩ := hc
    by_cases hf : runOutcome movie.movieId
    · rw [← hchunk] at hec
      simp only [hf, if_true, List.mem_cons, List.mem_singleton] at hec
      rcases hec with h | h | h <;> simp_all
    · rw [← hchunk] at hec
      simp only [hf, if_false, Bool.false_eq_true, List.mem_singleton] at hec
      simp_all
  · intro r _ hold
    unfold needsRefresh sevenDaysMs
    simp only [Bool.or_eq_true, decide_eq_true_eq]
    right
    omega

/-- C8 witness: one stale record (8 days old, `needsUpdate = false`, in
milliseconds with `now = 10^12`) put through the theorem: it is selected
when the cap allows, the batch is within the cap, the trace attempts
exactly the selected ids even though the run fails, and the staleness rule
holds for the 8-day-old record. -/
theorem updatePopularMovies_spec_witness :
    ((⟨7, "m", none, "", 0, RecStatus.completed, [],
        1000000000000 - 8 * 24 * 60 * 60 * 1000, false, 3⟩ : ReviewSynthesisRec)
      ∈ findMoviesNeedingUpdate 1000000000000
        [⟨7, "m", none, "", 0, RecStatus.completed, [],
          1000000000000 - 8 * 24 * 60 * 60 * 1000, false, 3⟩] 10) ∧
    (findMoviesNeedingUpdate 1000000000000
        [⟨7, "m", none, "", 0, RecStatus.completed, [],
          1000000000000 - 8 * 24 * 60 * 60 * 1000, false, 3⟩] 10).length ≤ 10 ∧
    ((updatePopularMovies 1000000000000
        [⟨7, "m", none, "", 0, RecStatus.completed, [],
          1000000000000 - 8 * 24 * 60 * 60 * 1000, false, 3⟩] 10 (fun _ => false)).filterMap
        attemptId
      = (findMoviesNeedingUpdate 1000000000000
          [⟨7, "m", none, "", 0, RecStatus.completed, [],
            1000000000000 - 8 * 24 * 60 * 60 * 1000, false, 3⟩] 10).map
          (fun r => r.movieId)) ∧
    needsRefresh 1000000000000
      ⟨7, "m", none, "", 0, RecStatus.completed, [],
        1000000000000 - 8 * 24 * 60 * 60 * 1000, false, 3⟩ = true :=
  ⟨(updatePopularMovies_spec 1000000000000
      [⟨7, "m", none, "", 0, RecStatus.completed, [],
        1000000000000 - 8 * 24 * 60 * 60 * 1000, false, 3⟩] 10 (fun _ => false)).2.1
      (by decide) _ (by decide) (by decide),
   (updatePopularMovies_spec 1000000000000
      [⟨7, "m", none, "", 0, RecStatus.completed, [],
        1000000000000 - 8 * 24 * 60 * 60 * 1000, false, 3⟩] 10 (fun _ => false)).2.2.2.1,
   (updatePopularMovies_spec 1000000000000
      [⟨7, "m", none, "", 0, RecStatus.completed, [],
        1000000000000 - 8 * 24 * 60 * 60 * 1000, false, 3⟩] 10 (fun _ => false)).2.2.2.2.1,
   (updatePopularMovies_spec 1000000000000
      [⟨7, "m", none, "", 0, RecStatus.completed, [],
        1000000000000 - 8 * 24 * 60 * 60 * 1000, false, 3⟩] 10 (fun _ => false)).2.2.2.2.2.2
      _ rfl rfl⟩

/-! ## C9 — failure isolation in collection -/

theorem redditLoop_fails (movieTitle : String)
    (fetch : String → Except String (Option (List RedditPost))) :
    ∀ subs, (∃ sub ∈ subs, (∃ e, fetch sub = .error e) ∨ fetch sub = .ok none) →
      ∃ e, redditLoop movieTitle fetch subs = .error e := by
  intro subs
  induction subs with
  | nil => rintro ⟨sub, h, _⟩; cases h
  | cons a l ih =>
    rintro ⟨sub, hmem, hfail⟩
    unfold redditLoop
    rcases List.mem_cons.mp hmem with rfl | hml
    · rcases hfail with ⟨e, he⟩ | he
      · rw [he]; exact ⟨e, rfl⟩
      · rw [he]; exact ⟨"malformed payload", rfl⟩
    · cases hf : fetch a with
      | error e => exact ⟨e, rfl⟩
      | ok v =>
        cases v with
        | none => exact ⟨"malformed payload", rfl⟩
        | some posts =>
          obtain ⟨e, hel⟩ := ih ⟨sub, hml, hfail⟩
          rw [hel]
          exact ⟨e, rfl⟩

theorem mapM_author_none (ds : List Discussion) (h : ∃ d ∈ ds, d.author = none) :
    ds.mapM (fun d => d.author.map (fun a => convertInternal d a)) = none := by
  rw [← List.mapM'_eq_mapM]
  induction ds with
  | nil => obtain ⟨d, hd, _⟩ := h; cases hd
  | cons a l ih =>
    obtain ⟨d, hd, hnone⟩ := h
    rcases List.mem_cons.mp hd with rfl | hml
    · simp [List.mapM', hnone]
    · simp only [List.mapM', ih ⟨d, hml, hnone⟩]
      cases a.author <;> simp

/-- C9: `collectAllReviews` is total for every oracle outcome (it never
raises — each per-source fetch is wrapped inside its collector); the merged
result contains each source's contribution in source order, a succeeded
source contributes all its converted items, and any per-source failure,
timeout, or malformed payload degrades that source — and only that
source — to an empty contribution. -/
theorem collectAllReviews_spec :
    ∀ (movieTitle : String) (o : CollectOracles),
      (collectTMDbReviews o.tmdb).Sublist (collectAllReviews movieTitle o) ∧
      (collectRedditReviews movieTitle o.reddit).Sublist (collectAllReviews movieTitle o) ∧
      (collectLetterboxdReviews o.lbSearch o.lbMovie o.nowIso).Sublist
        (collectAllReviews movieTitle o) ∧
      (collectInternalReviews o.internal).Sublist (collectAllReviews movieTitle o) ∧
      (∀ l, o.tmdb = .ok (some l) → collectTMDbReviews o.tmdb = l.map convertTmdb) ∧
      (∀ e, o.tmdb = .error e → collectTMDbReviews o.tmdb = []) ∧
      (o.tmdb = .ok none → collectTMDbReviews o.tmdb = []) ∧
      (∀ sub ∈ redditSubreddits,
        ((∃ e, o.reddit sub = .error e) ∨ o.reddit sub = .ok none) →
        collectRedditReviews movieTitle o.reddit = []) ∧
      (∀ e, o.lbSearch = .error e →
        collectLetterboxdReviews o.lbSearch o.lbMovie o.nowIso = []) ∧
      (∀ e, o.lbMovie = .error e →
        collectLetterboxdReviews o.lbSearch o.lbMovie o.nowIso = []) ∧
      (∀ e, o.internal = .error e → collectInternalReviews o.internal = []) ∧
      (∀ ds, o.internal = .ok ds → (∃ d ∈ ds, d.author = none) →
        collectInternalReviews o.internal = []) := by
  intro movieTitle o
  refine ⟨?_, ?_, ?_, ?_, ?_, ?_, ?_, ?_, ?_, ?_, ?_, ?_⟩
  · unfold collectAllReviews
    exact ((List.sublist_append_left _ _).trans
      (List.sublist_append_left _ _)).trans (List.sublist_append_left _ _)
  · unfold collectAllReviews
    exact ((List.sublist_append_right _ _).trans
      (List.sublist_append_left _ _)).trans (List.sublist_append_left _ _)
  · unfold collectAllReviews
    exact (List.sublist_append_right _ _).trans (List.sublist_append_left _ _)
  · unfold collectAllReviews
    exact List.sublist_append_right _ _
  · intro l h
    unfold collectTMDbReviews
    rw [h]
  · intro e h
    unfold collectTMDbReviews
    rw [h]
  · intro h
    unfold collectTMDbReviews
    rw [h]
  · intro sub hmem hfail
    unfold collectRedditReviews
    obtain ⟨e, he⟩ := redditLoop_fails movieTitle o.reddit redditSubreddits
      ⟨sub, hmem, hfail⟩
    rw [he]
  · intro e h
    unfold collectLetterboxdReviews
    rw [h]
  · intro e h
    unfold collectLetterboxdReviews
    cases hs : o.lbSearch with
    | error e2 => rfl
    | ok v =>
      cases v with
      | none => rfl
      | some link => rw [h]
  · intro e h
    unfold collectInternalReviews
    rw [h]
  · intro ds h hex
    unfold collectInternalReviews
    rw [h]
    dsimp only
    rw [mapM_author_none ds hex]

/-- C9 witness: a concrete oracle where TMDb succeeds with one review,
Reddit is down, Letterboxd finds no film, and the internal query returns
nothing: the TMDb contribution is fully converted and contained in the
merged result, and the Reddit failure degrades to an empty contribution. -/
theorem collectAllReviews_spec_witness :
    (collectTMDbReviews (.ok (some [⟨"a", "c", some 7, "d", "u"⟩]))).Sublist
      (collectAllReviews "T"
        ⟨.ok (some [⟨"a", "c", some 7, "d", "u"⟩]), fun _ => .error "down",
          .ok none, .ok [], .ok [], "now"⟩) ∧
    collectTMDbReviews (.ok (some [⟨"a", "c", some 7, "d", "u"⟩]))
      = [⟨"a", "c", some 7, "d", "u"⟩].map convertTmdb ∧
    collectRedditReviews "T" (fun _ => .error "down") = [] :=
  ⟨(collectAllReviews_spec "T"
      ⟨.ok (some [⟨"a", "c", some 7, "d", "u"⟩]), fun _ => .error "down",
        .ok none, .ok [], .ok [], "now"⟩).1,
   (collectAllReviews_spec "T"
      ⟨.ok (some [⟨"a", "c", some 7, "d", "u"⟩]), fun _ => .error "down",
        .ok none, .ok [], .ok [], "now"⟩).2.2.2.2.1 [⟨"a", "c", some 7, "d", "u"⟩] rfl,
   (collectAllReviews_spec "T"
      ⟨.ok (some [⟨"a", "c", some 7, "d", "u"⟩]), fun _ => .error "down",
        .ok none, .ok [], .ok [], "now"⟩).2.2.2.2.2.2.2.1 "movies" (by decide)
      (Or.inl ⟨"down", rfl⟩)⟩

/-! ## C2 — guard release on every exit path -/

theorem catch_isProcessing (movieId : ℕ) (msg : String) (s : GenState)
    (h : movieId ∈ s.isProcessing) :
    (generateSynthesisCatch movieId msg s).1.isProcessing
      = s.isProcessing.erase movieId := by
  unfold generateSynthesisCatch
  rw [if_pos h]
  rcases hdb : s.db with _ | r <;> simp [hdb]

theorem admitted_isProcessing (popScore : MovieDetails → ℕ → ℤ) (o : GenOracle)
    (movieId : ℕ) (syn0 : Option ReviewSynthesisRec) (s : GenState)
    (hmem : movieId ∈ s.isProcessing) :
    (generateSynthesisAdmitted popScore o movieId syn0 s).1.isProcessing
      = s.isProcessing.erase movieId := by
  unfold generateSynthesisAdmitted
  cases hf : o.fetch with
  | error e => exact catch_isProcessing _ _ _ hmem
  | ok v =>
    cases v with
    | none => exact catch_isProcessing _ _ _ hmem
    | some d =>
      dsimp only
      by_cases hr : o.reviews.length = 0
      · simp [hr]
      · simp only [hr, if_false]
        cases ha : o.analysis with
        | error e => exact catch_isProcessing _ _ _ hmem
        | ok analysis => simp

/-- C2: whatever the oracle outcomes — successful completion, zero-review
completion, a fetch rejection, or an analysis exception — a
`generateSynthesis` call on a subject id not currently admitted leaves the
id out of the `isProcessing` guard set when it settles, so the guard entry
is released on every exit path and the subject is never permanently locked
out. -/
theorem generateSynthesis_releases_guard :
    ∀ (popScore : MovieDetails → ℕ → ℤ) (o : GenOracle) (movieId : ℕ)
      (forceUpdate : Bool) (s : GenState),
      movieId ∉ s.isProcessing →
      movieId ∉ (generateSynthesis popScore o movieId forceUpdate s).1.isProcessing := by
  intro pop o movieId force s hnot
  unfold generateSynthesis
  rw [if_neg hnot]
  cases hdb : s.db with
  | some r =>
    by_cases hc : (!force && !needsRefresh s.now r) = true
    · simp [hc, hnot]
    · simp only [hc, if_false, Bool.not_eq_true] at *
      rw [if_neg (by simp [hc])]
      rw [admitted_isProcessing _ _ _ _ _ (by exact List.mem_cons_self _ _)]
      rw [List.erase_cons_head]
      exact hnot
  | none =>
    rw [admitted_isProcessing _ _ _ _ _ (by exact List.mem_cons_self _ _)]
    rw [List.erase_cons_head]
    exact hnot

/-- C2 witness: a run whose analysis stage throws, on an empty guard set —
the guard entry is still released. -/
theorem generateSynthesis_releases_guard_witness :
    1 ∉ (generateSynthesis (fun _ _ => 0)
      ⟨.ok (some ⟨"T", none, none, none, none⟩),
        [⟨"tmdb", "a", "c", none, "d", "u", none⟩], .error "analyzer crashed"⟩
      1 false ⟨[], none, 0⟩).1.isProcessing :=
  generateSynthesis_releases_guard (fun _ _ => 0)
    ⟨.ok (some ⟨"T", none, none, none, none⟩),
      [⟨"tmdb", "a", "c", none, "d", "u", none⟩], .error "analyzer crashed"⟩
    1 false ⟨[], none, 0⟩ (by decide)

/-! ## C6 — zero reviews is a completed run -/

/-- C6: an admitted run that collects zero reviews terminates with
`status = completed`, `reviewCount = 0`, and the literal empty-state
summary, and the guard entry is released. -/
theorem generateSynthesis_zero_reviews :
    ∀ (popScore : MovieDetails → ℕ → ℤ) (o : GenOracle) (movieId : ℕ)
      (forceUpdate : Bool) (s : GenState) (d : MovieDetails),
      movieId ∉ s.isProcessing →
      o.fetch = .ok (some d) →
      o.reviews = [] →
      (s.db = none ∨ forceUpdate = true ∨
        ∃ r, s.db = some r ∧ needsRefresh s.now r = true) →
      ∃ rec, (generateSynthesis popScore o movieId forceUpdate s).2 = .ok rec ∧
        rec.status = .completed ∧ rec.reviewCount = 0 ∧
        rec.summary = "No reviews found for this movie yet." ∧
        movieId ∉ (generateSynthesis popScore o movieId forceUpdate s).1.isProcessing := by
  intro pop o movieId force s d hnot hf hr hadm
  unfold generateSynthesis
  rw [if_neg hnot]
  cases hdb : s.db with
  | none =>
    unfold generateSynthesisAdmitted
    rw [hf]
    dsimp only
    simp only [hr, List.length_nil, ↓reduceIte]
    refine ⟨_, rfl, rfl, rfl, rfl, ?_⟩
    dsimp only
    rw [List.erase_cons_head]
    exact hnot
  | some r =>
    have hcond : (!force && !needsRefresh s.now r) = false := by
      rcases hadm with h | h | ⟨r2, hr2, href⟩
      · rw [hdb] at h; cases h
      · simp [h]
      · rw [hdb] at hr2
        injection hr2 with hr2
        subst hr2
        simp [href]
    dsimp only
    rw [hcond]
    simp only [Bool.false_eq_true, if_false]
    unfold generateSynthesisAdmitted
    rw [hf]
    dsimp only
    simp only [hr, List.length_nil, ↓reduceIte]
    refine ⟨_, rfl, rfl, rfl, rfl, ?_⟩
    dsimp only
    rw [List.erase_cons_head]
    exact hnot

/-- C6 witness: a first-time run (no record yet) that collects zero
reviews. -/
theorem generateSynthesis_zero_reviews_witness :
    ∃ rec, (generateSynthesis (fun _ _ => 0)
        ⟨.ok (some ⟨"T", none, none, none, none⟩), [], .ok ⟨"s", 0⟩⟩
        1 false ⟨[], none, 0⟩).2 = .ok rec ∧
      rec.status = .completed ∧ rec.reviewCount = 0 ∧
      rec.summary = "No reviews found for this movie yet." ∧
      1 ∉ (generateSynthesis (fun _ _ => 0)
        ⟨.ok (some ⟨"T", none, none, none, none⟩), [], .ok ⟨"s", 0⟩⟩
        1 false ⟨[], none, 0⟩).1.isProcessing :=
  generateSynthesis_zero_reviews (fun _ _ => 0)
    ⟨.ok (some ⟨"T", none, none, none, none⟩), [], .ok ⟨"s", 0⟩⟩
    1 false ⟨[], none, 0⟩ ⟨"T", none, none, none, none⟩
    (by decide) rfl rfl (Or.inl rfl)

/-! ## C3 — stale-while-revalidate read path -/

/-- C3 counterexample: a record exists (`findOne` returns it: a stale
`failed` record with `needsUpdate = true`), yet `getSynthesis` runs the
generation synchronously on the read path — the claim says synchronous
generation happens only when no record exists yet. -/
theorem getSynthesis_sync_despite_existing_record :
    (getSynthesis 0
      ⟨.ok (some ⟨1, "m", none, "", 0, RecStatus.failed, [], 0, true, 0⟩),
        .ok (), .ok none⟩).syncRan = true ∧
    (⟨.ok (some ⟨1, "m", none, "", 0, RecStatus.failed, [], 0, true, 0⟩),
        .ok (), .ok none⟩ : GetOracle).findOne
      = .ok (some ⟨1, "m", none, "", 0, RecStatus.failed, [], 0, true, 0⟩) := by
  constructor
  · with_unfolding_all decide
  · rfl

/-- C3 (amended): on a stale `completed` record with the save succeeding,
`getSynthesis` sets `needsUpdate = true`, starts the background
regeneration without awaiting it, and immediately returns the existing
record; synchronous generation on the read path happens exactly when no
record exists or when the existing record needs refresh and its status is
not `completed`. -/
theorem getSynthesis_amended :
    ∀ (now : ℤ) (o : GetOracle) (r : ReviewSynthesisRec),
      (o.findOne = .ok (some r) → needsRefresh now r = true → r.status = .completed →
        o.save = .ok () →
        getSynthesis now o =
          { ret := some { r with needsUpdate := true }, savedNeedsUpdate := true,
            backgroundStarted := true, syncRan := false }) ∧
      (o.findOne = .ok none → (getSynthesis now o).syncRan = true) ∧
      (o.findOne = .ok (some r) → (getSynthesis now o).syncRan = true →
        needsRefresh now r = true ∧ r.status ≠ .completed) := by
  intro now o r
  refine ⟨?_, ?_, ?_⟩
  · intro hf href hst hsave
    unfold getSynthesis
    rw [hf]
    dsimp only
    rw [href]
    simp only [↓reduceIte, hst, hsave]
  · intro hf
    unfold getSynthesis
    rw [hf]
    dsimp only
    unfold getSynthesisSync
    cases o.gen <;> rfl
  · intro hf hsync
    unfold getSynthesis at hsync
    rw [hf] at hsync
    dsimp only at hsync
    by_cases href : needsRefresh now r = true
    · rw [href] at hsync
      simp only [↓reduceIte] at hsync
      refine ⟨href, ?_⟩
      intro hst
      rw [if_pos hst] at hsync
      cases hsave : o.save with
      | error e => rw [hsave] at hsync; cases hsync
      | ok u => rw [hsave] at hsync; cases hsync
    · simp only [Bool.not_eq_true] at href
      rw [href] at hsync
      simp only [Bool.false_eq_true, ↓reduceIte] at hsync

/-- C3 witness: a completed record last updated at time 0 read just past
the 7-day window — marked, returned as-is, background started, no
synchronous generation — and a missing record triggering the synchronous
path. -/
theorem getSynthesis_amended_witness :
    getSynthesis 604800001
      ⟨.ok (some ⟨1, "m", none, "s", 2, RecStatus.completed, [], 0, false, 0⟩),
        .ok (), .ok none⟩ =
      { ret := some ⟨1, "m", none, "s", 2, RecStatus.completed, [], 0, true, 0⟩,
        savedNeedsUpdate := true, backgroundStarted := true, syncRan := false } ∧
    (getSynthesis 604800001 ⟨.ok none, .ok (), .ok none⟩).syncRan = true :=
  ⟨(getSynthesis_amended 604800001
      ⟨.ok (some ⟨1, "m", none, "s", 2, RecStatus.completed, [], 0, false, 0⟩),
        .ok (), .ok none⟩
      ⟨1, "m", none, "s", 2, RecStatus.completed, [], 0, false, 0⟩).1
      rfl (by decide) rfl rfl,
   (getSynthesis_amended 604800001 ⟨.ok none, .ok (), .ok none⟩
      ⟨1, "m", none, "s", 2, RecStatus.completed, [], 0, false, 0⟩).2.1 rfl⟩

/-! ## C10 — getSynthesis never propagates exceptions -/

/-- C10: `getSynthesis` catches every error raised inside it and returns
`null` instead: a failing record lookup, a failing save on the
stale-completed path, and a failing synchronous generation all yield a
`none` return value (the model is total, so no exception escapes). -/
theorem getSynthesis_catches_errors :
    ∀ (now : ℤ) (o : GetOracle),
      (∀ e, o.findOne = .error e → (getSynthesis now o).ret = none) ∧
      (∀ e r, o.findOne = .ok (some r) → needsRefresh now r = true →
        r.status = .completed → o.save = .error e → (getSynthesis now o).ret = none) ∧
      (∀ e, o.gen = .error e → (getSynthesis now o).syncRan = true →
        (getSynthesis now o).ret = none) := by
  intro now o
  refine ⟨?_, ?_, ?_⟩
  · intro e hf
    unfold getSynthesis
    rw [hf]
  · intro e r hf href hst hsave
    unfold getSynthesis
    rw [hf]
    dsimp only
    rw [href]
    simp only [↓reduceIte, hst, hsave]
  · intro e hg
    cases hf : o.findOne with
    | error e2 =>
      intro _
      unfold getSynthesis
      rw [hf]
    | ok v =>
      cases v with
      | none =>
        intro _
        unfold getSynthesis
        rw [hf]
        dsimp only
        unfold getSynthesisSync
        rw [hg]
        rfl
      | some r =>
        intro hsync
        have hcond := (getSynthesis_amended now o r).2.2 hf hsync
        unfold getSynthesis at hsync ⊢
        rw [hf] at hsync ⊢
        dsimp only at hsync ⊢
        rw [hcond.1] at hsync ⊢
        simp only [↓reduceIte] at hsync ⊢
        rw [if_neg hcond.2] at hsync ⊢
        unfold getSynthesisSync at hsync ⊢
        rw [hg] at hsync ⊢

/-- C10 witness: a failing lookup and a failing synchronous generation
both return `null`. -/
theorem getSynthesis_catches_errors_witness :
    (getSynthesis 0 ⟨.error "db down", .ok (), .ok none⟩).ret = none ∧
    (getSynthesis 0 ⟨.ok none, .ok (), .error "boom"⟩).ret = none :=
  ⟨(getSynthesis_catches_errors 0 ⟨.error "db down", .ok (), .ok none⟩).1 "db down" rfl,
   (getSynthesis_catches_errors 0 ⟨.ok none, .ok (), .error "boom"⟩).2.2 "boom" rfl
    (by with_unfolding_all decide)⟩

/-! ## C1 — concurrent admission race -/

/-- Oracle for the race scenario: the fetch succeeds, one review is
collected, the analysis succeeds. -/
def raceOracle : GenOracle :=
  { fetch := .ok (some ⟨"T", none, none, none, none⟩),
    reviews := [⟨"tmdb", "a", "c", none, "d", "u", none⟩],
    analysis := .ok ⟨"summary", 1⟩ }

/-- The failing interleaving: the two calls alternate one atomic segment at
a time, so the second call runs its `isProcessing` check while the first is
still awaiting its `findOne` — before the first call has inserted the id. -/
def raceSchedule : List (Fin 2) :=
  [0, 1, 0, 1, 0, 1, 0, 1, 0, 1, 0, 1, 0, 1, 0, 1, 0, 1]

/-- The race scenario run: two `generateSynthesis(1, false)` calls on an
empty guard set and an empty store, interleaved per `raceSchedule`. -/
def raceRun : GenState × TaskState × TaskState :=
  runTwoCalls (fun _ _ => 0) raceOracle raceOracle 1 false false raceSchedule
    ⟨[], none, 0⟩ ⟨.entry, none, none, "", none⟩ ⟨.entry, none, none, "", none⟩

/-- Whether a settled call executed a full run (settled with a produced
record rather than the no-op signal, a cached record, or an error). -/
def outcomeIsRun : Option GenOutcome → Bool
  | some (.ok _) => true
  | _ => false

/-- Number of `processingLog` entries on the record a settled call
produced. -/
def outcomeLogLength : Option GenOutcome → ℕ
  | some (.ok r) => r.processingLog.length
  | _ => 0

/-- C1: evaluating the code at the failing interleaving — two concurrent
`generateSynthesis` calls for the same subject id, the second starting
before the first has passed its `findOne` await.  Both calls are admitted
and both execute a full run, each producing four new `processingLog`
entries; neither call settles with the no-op signal.  The check
(`isProcessing.has`) and the insert (`isProcessing.add`) straddle two
`await` boundaries, so the check-and-insert is not atomic and the claimed
mutual exclusion fails on this schedule. -/
theorem generateSynthesis_guard_race :
    outcomeIsRun raceRun.2.1.outcome = true ∧
    outcomeIsRun raceRun.2.2.outcome = true ∧
    raceRun.2.1.outcome ≠ some GenOutcome.noop ∧
    raceRun.2.2.outcome ≠ some GenOutcome.noop ∧
    outcomeLogLength raceRun.2.1.outcome = 4 ∧
    outcomeLogLength raceRun.2.2.outcome = 4 ∧
    raceRun.1.isProcessing = [] := by
  with_unfolding_all decide

end MovieExplorer
